import Mathlib

/-!
Shallow embedding of the neuro-san-studio repository pieces that the
specification's testable properties talk about:

* `coded_tools/industry/order_fulfilment_system/*.py` — four static
  "database" coded tools (approved supplier, production parameter,
  compliance checklist, quality failure mode);
* `coded_tools/kwik_agents/*.py` — the PDF-knowledge ingestion, query and
  extraction tools;
* `apps/pdf_knowledge_assistant/interface_flask.py` — the upload handler
  and the WebSocket query handler.

Python dictionaries that cross a tool boundary are embedded as the
`Value` type below (association lists of string keys).  Python string
methods used by the code (`lower`, `upper`, `strip`, `replace(" ", "_")`,
`endswith`, `os.path.basename`) are embedded character-wise over
`String.data`; this matches Python on the ASCII data the tables hold.
Filesystem facts (existence of a file) and the behaviour of external
libraries (PyMuPDF, the vector store of `base_rag`, werkzeug, the agent
session) enter as explicit parameters of the embedded functions, so the
control flow of the repository code itself is total and executable.
-/

/-- A Python value as it appears in the static tables and tool outputs:
strings, ints, booleans, decimal literals (`num m d` stands for the
Python float literal `m × 10⁻ᵈ`, e.g. `num 342 2` is `3.42`), lists and
string-keyed dictionaries (association lists, preserving insertion
order as Python dicts do). -/
inductive Value where
  | str : String → Value
  | int : Int → Value
  | num : Int → Nat → Value
  | bool : Bool → Value
  | list : List Value → Value
  | dict : List (String × Value) → Value

/-- Python `d[key]` / `key in d` on a string-keyed dict: first binding wins. -/
def lookupTable {α : Type} (key : String) : List (String × α) → Option α
  | [] => none
  | (k, v) :: rest => if key = k then some v else lookupTable key rest

/-- Character-wise embedding of Python `str.upper()` (ASCII-faithful). -/
def pyUpper (s : String) : String := String.mk (s.data.map Char.toUpper)

/-- Character-wise embedding of Python `str.lower()` (ASCII-faithful). -/
def pyLower (s : String) : String := String.mk (s.data.map Char.toLower)

/-- Embedding of Python `s.lower().replace(" ", "_")`, the key
normalisation step shared by the production-parameter, compliance and
failure-mode database tools. -/
def pyNormalizeKey (s : String) : String :=
  String.mk ((s.data.map Char.toLower).map (fun c => if c = ' ' then '_' else c))

/-- Embedding of Python `s.endswith(suffix)`. -/
def pyEndsWith (s suffix : String) : Bool := suffix.data.isSuffixOf s.data

/-- Embedding of Python `str.strip()` (whitespace trim at both ends). -/
def pyStrip (s : String) : String :=
  String.mk (((s.data.dropWhile Char.isWhitespace).reverse.dropWhile Char.isWhitespace).reverse)

/-- Embedding of Python `os.path.basename` for POSIX paths: the part of
the path after the last slash. -/
def pyBasename (p : String) : String :=
  String.mk ((p.data.reverse.takeWhile (fun c => c ≠ '/')).reverse)

/-! ## approved_supplier_database.py -/

/-- One entry of the `approved_suppliers` list inside `_SUPPLIER_DATA`
(`approved_supplier_database.py` lines 29–70).  The internal record
keeps `plasticiser_thermal_degradation_onset_celsius`; `invoke` builds
its output from the other fields only. -/
structure Supplier where
  supplier_id : String
  supplier_name : String
  material_code : String
  plasticiser_type : String
  lead_time_days : Int
  stock_available : Bool
  minimum_order_qty_kg : Int
  unit_cost_gbp_per_kg : Value
  ms4401_v3_2_results : List (String × Value)
  plasticiser_thermal_degradation_onset_celsius : Int

/-- The record stored under a SKU in `_SUPPLIER_DATA`. -/
structure SupplierRecord where
  product_name : String
  material_category : String
  approved_suppliers : List Supplier

/-- The record `_SUPPLIER_DATA["TB-DINO-003"]` (lines 25–72). -/
def tbDinoRecord : SupplierRecord where
  product_name := "ToyBright Bath Dinosaur"
  material_category := "PVC compound (injection moulding grade)"
  approved_suppliers :=
    [{ supplier_id := "SUP-A-2291"
       supplier_name := "PrimePlast GmbH"
       material_code := "PVC-A12"
       plasticiser_type := "DOTP (Dioctyl terephthalate)"
       lead_time_days := 18
       stock_available := false
       minimum_order_qty_kg := 2500
       unit_cost_gbp_per_kg := .num 342 2
       ms4401_v3_2_results :=
         [("tensile_strength_mpa", .num 241 1),
          ("elongation_at_break_pct", .int 310),
          ("shore_hardness_a", .int 78),
          ("density_g_per_cm3", .num 131 2),
          ("melt_flow_index_g_per_10min", .num 82 1)]
       plasticiser_thermal_degradation_onset_celsius := 210 },
     { supplier_id := "SUP-B-4487"
       supplier_name := "AsiaCompound Ltd"
       material_code := "PVC-B7"
       plasticiser_type := "DINCH (Diisononyl cyclohexane-1,2-dicarboxylate)"
       lead_time_days := 8
       stock_available := true
       minimum_order_qty_kg := 1000
       unit_cost_gbp_per_kg := .num 287 2
       ms4401_v3_2_results :=
         [("tensile_strength_mpa", .num 228 1),
          ("elongation_at_break_pct", .int 295),
          ("shore_hardness_a", .int 76),
          ("density_g_per_cm3", .num 129 2),
          ("melt_flow_index_g_per_10min", .num 91 1)]
       plasticiser_thermal_degradation_onset_celsius := 188 }]

/-- `_SUPPLIER_DATA` (lines 24–73): a single SKU, `TB-DINO-003`. -/
def _SUPPLIER_DATA : List (String × SupplierRecord) := [("TB-DINO-003", tbDinoRecord)]

namespace ApprovedSupplierDatabase

/-- The per-supplier output dictionary built by `invoke` (lines 108–118):
nine named fields, copied from the internal record, deliberately
omitting `plasticiser_thermal_degradation_onset_celsius`. -/
def supplierEntry (s : Supplier) : Value :=
  .dict
    [("supplier_id", .str s.supplier_id),
     ("supplier_name", .str s.supplier_name),
     ("material_code", .str s.material_code),
     ("plasticiser_type", .str s.plasticiser_type),
     ("lead_time_days", .int s.lead_time_days),
     ("stock_available", .bool s.stock_available),
     ("minimum_order_qty_kg", .int s.minimum_order_qty_kg),
     ("unit_cost_gbp_per_kg", s.unit_cost_gbp_per_kg),
     ("ms4401_v3_2_results", .dict s.ms4401_v3_2_results)]

/-- The `result` dictionary of `invoke` before the rush check (lines 121–139). -/
def baseResult (sku : String) (record : SupplierRecord) : List (String × Value) :=
  [("sku", .str sku),
   ("product_name", .str record.product_name),
   ("material_category", .str record.material_category),
   ("testing_standard", .str "MS-4401 v3.2 — Material Suitability Standard"),
   ("tested_parameters", .list
     [.str "tensile_strength_mpa",
      .str "elongation_at_break_pct",
      .str "shore_hardness_a",
      .str "density_g_per_cm3",
      .str "melt_flow_index_g_per_10min"]),
   ("approved_suppliers", .list (record.approved_suppliers.map supplierEntry)),
   ("note", .str ("All listed suppliers have passed MS-4401 v3.2 material suitability " ++
     "testing. Parameters not listed in MS-4401 v3.2 are outside the scope " ++
     "of this database."))]

/-- The `rush_advisory` value added when the (uppercased) priority is RUSH
(lines 141–145). -/
def rushAdvisory : String :=
  "RUSH ORDER: Prioritise suppliers with shortest lead time and " ++
  "available stock to meet expedited delivery requirements."

/-- `ApprovedSupplierDatabase.invoke` (lines 85–147).  The two arguments
model `args.get("sku", "")` and `args.get("order_priority", "STANDARD")`;
note the SKU is looked up verbatim while the priority is uppercased. -/
def invoke (sku_arg order_priority_arg : Option String) : Value :=
  let sku := sku_arg.getD ""
  let order_priority := pyUpper (order_priority_arg.getD "STANDARD")
  match lookupTable sku _SUPPLIER_DATA with
  | none => .str ("Error: SKU \x27" ++ sku ++ "\x27 not found in Approved Vendor List.")
  | some record =>
      if order_priority = "RUSH" then
        .dict (baseResult sku record ++ [("rush_advisory", .str rushAdvisory)])
      else
        .dict (baseResult sku record)

end ApprovedSupplierDatabase

/-- Whether a dictionary value has `key` among its top-level keys
(`False` on non-dict values, such as error strings). -/
def hasTopKey (key : String) : Value → Bool
  | .dict d => d.any (fun p => p.1 == key)
  | _ => false

/-- Whether a tool result mentions `key` either at top level or inside
one of the entries of its `approved_suppliers` list. -/
def mentionsKeyTopOrSuppliers (key : String) (v : Value) : Bool :=
  hasTopKey key v ||
    (match v with
     | .dict d =>
       (match lookupTable "approved_suppliers" d with
        | some (.list entries) => entries.any (hasTopKey key)
        | _ => false)
     | _ => false)

/-- Whether a tool result is an `Error:`-prefixed string (as opposed to a
result dictionary). -/
def isErrorString : Value → Bool
  | .str s => "Error:".data.isPrefixOf s.data
  | _ => false

/-! ## production_parameter_database.py -/

/-- The record stored under a process type in `_PARAMETER_RANGES`
(`production_parameter_database.py` lines 26–70). -/
structure ParameterRecord where
  process_type : String
  material_category : String
  parameters : List (String × Value)
  throughput_advisory : String
  validation_reference : String
  validation_status : String

/-- One `{min, max, unit, description}` parameter-range dictionary. -/
def paramRange (lo hi : Int) (unit description : String) : Value :=
  .dict [("min", .int lo), ("max", .int hi), ("unit", .str unit),
         ("description", .str description)]

/-- `_PARAMETER_RANGES` (lines 26–70): a single process, `injection_moulding`. -/
def _PARAMETER_RANGES : List (String × ParameterRecord) :=
  [("injection_moulding",
    { process_type := "Injection Moulding"
      material_category := "PVC compound"
      parameters :=
        [("barrel_temperature_celsius",
          paramRange 180 200 "°C" "Barrel temperature range for PVC injection moulding"),
         ("injection_pressure_bar",
          paramRange 80 120 "bar" "Injection pressure range"),
         ("cooling_time_seconds",
          paramRange 15 25 "seconds" "Cooling time per cycle"),
         ("mould_temperature_celsius",
          paramRange 30 50 "°C" "Mould temperature range"),
         ("injection_speed_mm_per_s",
          paramRange 40 80 "mm/s" "Injection speed range")]
      throughput_advisory :=
        "At 195-200°C barrel temperature, throughput increases approximately " ++
        "20% due to improved melt flow. Recommended for rush orders requiring " ++
        "maximum production efficiency."
      validation_reference := "PVR-2023-017"
      validation_status := "APPROVED — All parameters validated within specified ranges" })]

namespace ProductionParameterDatabase

/-- `ProductionParameterDatabase.invoke` (lines 84–115).  The argument
models `args.get("process_type", "injection_moulding")`; the key is
normalised with `.lower().replace(" ", "_")` before lookup. -/
def invoke (process_type_arg : Option String) : Value :=
  let process_type := pyNormalizeKey (process_type_arg.getD "injection_moulding")
  match lookupTable process_type _PARAMETER_RANGES with
  | none => .str ("Error: Process type \x27" ++ process_type ++
      "\x27 not found in approved parameter database.")
  | some record =>
      .dict
        [("process_type", .str record.process_type),
         ("material_category", .str record.material_category),
         ("approved_parameters", .dict record.parameters),
         ("throughput_advisory", .str record.throughput_advisory),
         ("validation_reference", .str record.validation_reference),
         ("validation_status", .str record.validation_status),
         ("note", .str ("All parameter ranges have been validated and approved under " ++
           "reference PVR-2023-017. Operators must ensure settings remain " ++
           "within these ranges during production."))]

end ProductionParameterDatabase

/-! ## compliance_checklist_database.py -/

/-- The record stored under a product category in `_COMPLIANCE_CHECKLISTS`
(`compliance_checklist_database.py` lines 27–97). -/
structure ChecklistRecord where
  checklist_name : String
  reference : String
  applicable_regulations : List Value
  checklist_items : List Value

/-- One checklist-item dictionary `{id, item, description,
verification_method, pass_criteria}`. -/
def checklistItem (id item description verification_method pass_criteria : String) : Value :=
  .dict [("id", .str id), ("item", .str item), ("description", .str description),
         ("verification_method", .str verification_method),
         ("pass_criteria", .str pass_criteria)]

/-- `_COMPLIANCE_CHECKLISTS` (lines 27–97): a single category,
`childrens_toy_production`, with seven checklist items. -/
def _COMPLIANCE_CHECKLISTS : List (String × ChecklistRecord) :=
  [("childrens_toy_production",
    { checklist_name := "Children\x27s Toy Production Compliance Checklist"
      reference := "CC-TOY-2024-R2"
      applicable_regulations :=
        [.str "EN 71-3:2019+A1:2021 (Safety of Toys — Migration of certain elements)",
         .str "REACH Regulation (EC) No 1907/2006",
         .str "UK Toy Safety Regulations 2011 (S.I. 2011/1881)"]
      checklist_items :=
        [checklistItem "CC-001" "Approved Vendor List (AVL) Verification"
           "Confirm selected supplier is on the current Approved Vendor List"
           "Cross-reference supplier ID against AVL database"
           "Supplier ID exists in AVL with status APPROVED",
         checklistItem "CC-002" "MS-4401 v3.2 Material Compliance"
           "Verify material passes all 5 parameters in MS-4401 v3.2 testing standard"
           "Review MS-4401 v3.2 test results from supplier database"
           "All 5 tested parameters within specification",
         checklistItem "CC-003" "Production Parameter Range Compliance"
           "Verify all production parameters fall within approved ranges"
           "Compare planned parameters against PVR-2023-017 approved ranges"
           "All parameters within min-max approved range",
         checklistItem "CC-004" "Quality Risk Assessment"
           "Confirm quality risk assessment completed with acceptable risk levels"
           "Review FMEA-based quality prediction output"
           "No HIGH or CRITICAL risk failure modes identified",
         checklistItem "CC-005" "Production Feasibility Confirmation"
           "Verify production timeline meets delivery requirements"
           "Compare lead time and production schedule against order deadline"
           "Estimated completion date on or before required delivery date",
         checklistItem "CC-006" "EN 71-3 Chemical Safety Compliance"
           ("Verify material complies with EN 71-3 migration limits for " ++
            "elements in children\x27s toys")
           ("Material supplier certification and MS-4401 v3.2 compliance " ++
            "confirmation")
           ("Supplier provides EN 71-3 compliance certificate; material " ++
            "passes MS-4401 v3.2"),
         checklistItem "CC-007" "REACH Regulation Compliance"
           "Verify material and plasticiser comply with REACH substance restrictions"
           "Review supplier REACH compliance declaration and material safety data sheet"
           "No REACH-restricted substances above threshold; supplier declaration on file"] })]

namespace ComplianceChecklistDatabase

/-- `ComplianceChecklistDatabase.invoke` (lines 110–140).  The argument
models `args.get("product_category", "childrens_toy_production")`; the
key is normalised with `.lower().replace(" ", "_")` before lookup. -/
def invoke (product_category_arg : Option String) : Value :=
  let product_category := pyNormalizeKey (product_category_arg.getD "childrens_toy_production")
  match lookupTable product_category _COMPLIANCE_CHECKLISTS with
  | none => .str ("Error: Product category \x27" ++ product_category ++
      "\x27 not found in compliance checklist database.")
  | some record =>
      .dict
        [("checklist_name", .str record.checklist_name),
         ("reference", .str record.reference),
         ("applicable_regulations", .list record.applicable_regulations),
         ("total_items", .int record.checklist_items.length),
         ("checklist_items", .list record.checklist_items),
         ("note", .str ("Verify each checklist item against the outputs from upstream " ++
           "agents (OrderAssess, SourceSelect, PlanBuilder, QualityPredict). " ++
           "All items must PASS for production to be approved."))]

end ComplianceChecklistDatabase

/-! ## quality_failure_mode_database.py -/

/-- The record stored under a process type in `_FAILURE_MODES`
(`quality_failure_mode_database.py` lines 27–106). -/
structure FailureModeRecord where
  process_type : String
  fmea_reference : String
  failure_modes : List Value
  scope_note : String

/-- One failure-mode dictionary `{id, failure_mode, cause,
detection_method, risk_parameters, mitigation}`. -/
def failureMode (id mode cause detection : String)
    (risk_parameters : List (String × Value)) (mitigation : String) : Value :=
  .dict [("id", .str id), ("failure_mode", .str mode), ("cause", .str cause),
         ("detection_method", .str detection),
         ("risk_parameters", .dict risk_parameters),
         ("mitigation", .str mitigation)]

/-- `_FAILURE_MODES` (lines 27–106): a single process,
`pvc_injection_moulding`, with six failure modes. -/
def _FAILURE_MODES : List (String × FailureModeRecord) :=
  [("pvc_injection_moulding",
    { process_type := "PVC Injection Moulding"
      fmea_reference := "FMEA-PVC-IM-2023-R4"
      failure_modes :=
        [failureMode "FM-001" "Warping / Distortion"
           "Uneven cooling or excessive mould temperature differential"
           "Visual inspection and dimensional gauging"
           [("barrel_temp_risk", .str "LOW if within 180-200°C range"),
            ("cooling_time_risk", .str "MEDIUM if below 15s")]
           "Maintain uniform mould temperature; ensure adequate cooling time",
         failureMode "FM-002" "Sink Marks"
           "Insufficient packing pressure or premature gate freeze-off"
           "Visual inspection under angled lighting"
           [("injection_pressure_risk", .str "LOW if within 80-120 bar"),
            ("barrel_temp_risk", .str "LOW if within 180-200°C range")]
           "Optimise packing pressure and hold time",
         failureMode "FM-003" "Short Shots (Incomplete Fill)"
           "Insufficient injection pressure or material flow restriction"
           "Visual inspection — incomplete part geometry"
           [("injection_pressure_risk", .str "LOW if within 80-120 bar"),
            ("barrel_temp_risk", .str "LOW if within 180-200°C range (higher temp improves flow)")]
           "Increase injection pressure or barrel temperature within approved range",
         failureMode "FM-004" "Flash (Excess Material)"
           "Excessive injection pressure or worn mould tooling"
           "Visual inspection — excess material at parting lines"
           [("injection_pressure_risk", .str "LOW if within 80-120 bar"),
            ("clamp_force_risk", .str "LOW if mould tooling is within specification")]
           "Verify clamp tonnage; inspect mould tooling condition",
         failureMode "FM-005" "Discolouration / Burn Marks"
           "Excessive barrel temperature or prolonged residence time"
           "Visual inspection — colour variation or brown/black marks"
           [("barrel_temp_risk", .str "LOW if within 180-200°C range"),
            ("residence_time_risk", .str "LOW under standard cycle times")]
           "Reduce barrel temperature or cycle time; check for dead spots in barrel",
         failureMode "FM-006" "Brittleness / Reduced Impact Strength"
           "Material degradation from excessive processing temperature or moisture"
           "Drop test and Charpy impact test on sample parts"
           [("barrel_temp_risk", .str "LOW if within 180-200°C range"),
            ("material_drying_risk", .str "LOW if material dried per supplier specification")]
           "Ensure material is properly dried; keep barrel temp within range"]
      scope_note :=
        "This FMEA covers production process-related failure modes only. " ++
        "Chemical migration and leaching are assessed by material supplier " ++
        "certification and MS-4401 v3.2 compliance, not by production " ++
        "process FMEA." })]

namespace QualityFailureModeDatabase

/-- `QualityFailureModeDatabase.invoke` (lines 119–149).  The argument
models `args.get("process_type", "pvc_injection_moulding")`; the key is
normalised with `.lower().replace(" ", "_")` before lookup. -/
def invoke (process_type_arg : Option String) : Value :=
  let process_type := pyNormalizeKey (process_type_arg.getD "pvc_injection_moulding")
  match lookupTable process_type _FAILURE_MODES with
  | none => .str ("Error: Process type \x27" ++ process_type ++
      "\x27 not found in failure mode database.")
  | some record =>
      .dict
        [("process_type", .str record.process_type),
         ("fmea_reference", .str record.fmea_reference),
         ("total_failure_modes", .int record.failure_modes.length),
         ("failure_modes", .list record.failure_modes),
         ("scope_note", .str record.scope_note),
         ("note", .str ("Evaluate production quality risk ONLY against the failure modes " ++
           "documented above. Failure modes outside this database are assessed " ++
           "by other governance processes."))]

end QualityFailureModeDatabase

/-! ## kwik_agents/add_pdf_to_knowledge.py -/

/-- One entry of the document registry (`add_pdf_to_knowledge.py`
lines 102–109): the dictionary appended per successful ingestion. -/
structure RegistryEntry where
  filename : String
  file_path : String
  upload_date : String
  page_count : Nat
  file_size_bytes : Nat
  status : String
deriving DecidableEq

/-- The in-memory content of `DocumentRegistry.json`: the list under its
`"documents"` key.  `_update_document_registry` reads the whole file (or
starts from `{"documents": []}`), appends, and writes it back. -/
structure KnowledgeState where
  registry : List RegistryEntry
deriving DecidableEq

namespace AddPdfToKnowledge

/-- `AddPdfToKnowledge._update_document_registry` (lines 158–183), happy
path: `registry["documents"].append(entry)` on the loaded registry. -/
def _update_document_registry (registry : List RegistryEntry) (entry : RegistryEntry) :
    List RegistryEntry :=
  registry ++ [entry]

/-- Outcome of the `try:` block of `async_invoke` (lines 82–127) up to
the page count: the vector-store generation (delegated to
`base_rag.generate_vector_store`, outside this repository) and the
`PyMuPDFLoader` load are external, so their result is a parameter.
`pages n` means every step succeeded and the loader returned `n`
page documents; the remaining constructors are the `if not vector_store`
check and the three `except` clauses. -/
inductive IngestOutcome where
  | storeFalsy
  | pages (pageCount : Nat)
  | raiseFileNotFound
  | raiseValueError (e : String)
  | raiseOther (e : String)

/-- The registry entry built on lines 102–109 for a successful ingestion. -/
def mkEntry (file_path now : String) (pageCount fileSize : Nat) : RegistryEntry :=
  { filename := pyBasename file_path
    file_path := file_path
    upload_date := now
    page_count := pageCount
    file_size_bytes := fileSize
    status := "processed" }

/-- `AddPdfToKnowledge.async_invoke` (lines 52–127).  Parameters beyond
the `file_path` argument model the environment: `fileExists` is
`os.path.exists(file_path)`, `fileSize` is `os.path.getsize`, `now` is
`datetime.now().isoformat()`, and `outcome` is the result of the
external vector-store/loader calls.  Returns the result string together
with the registry state after the call. -/
def async_invoke (file_path : String) (fileExists : Bool) (outcome : IngestOutcome)
    (fileSize : Nat) (now : String) (st : KnowledgeState) : String × KnowledgeState :=
  if file_path = "" then
    ("Error: Missing required input \x27file_path\x27.", st)
  else if fileExists = false then
    ("Error: File not found: " ++ file_path, st)
  else if pyEndsWith (pyLower file_path) ".pdf" = false then
    ("Error: File must be a PDF: " ++ file_path, st)
  else
    match outcome with
    | .storeFalsy => ("Error: Failed to create or load vector store.", st)
    | .raiseFileNotFound => ("Error: File not found: " ++ file_path, st)
    | .raiseValueError e =>
        ("Error: Invalid file or unsupported input: " ++ file_path ++ " - " ++ e, st)
    | .raiseOther e => ("Error: Failed to add PDF to knowledge base: " ++ e, st)
    | .pages n =>
        ("Successfully added " ++ pyBasename file_path ++ " to knowledge base - " ++
           toString n ++ " pages processed.",
         { registry := _update_document_registry st.registry (mkEntry file_path now n fileSize) })

/-- `AddPdfToKnowledge.invoke` (lines 129–133): the synchronous entry
point unconditionally returns the async-required error. -/
def invoke (_args _sly_data : List (String × Value)) : String :=
  "Error: This tool requires async execution. Please use async_invoke."

end AddPdfToKnowledge

/-! ## kwik_agents/query_pdf_knowledge.py -/

namespace QueryPdfKnowledge

/-- Outcome of the `try:` block of `async_invoke` (lines 72–95): loading
the persisted vector store and running the similarity search are
delegated to `base_rag` (outside this repository), so their result is a
parameter.  `queried r` means both calls returned, with `r` the string
from `query_vectorstore` (`none` embeds Python `None`); `loadFalsy` is
the `if not vector_store` check; the remaining constructors are the two
`except` clauses. -/
inductive PostLoad where
  | loadFalsy
  | queried (result : Option String)
  | raiseFileNotFound
  | raiseOther (e : String)

/-- The distinct return points of `async_invoke` (lines 46–95), in
source order. -/
inductive QueryOutcome where
  | missingInput
  | noKnowledgeBase
  | loadFailed
  | noRelevantInfo
  | result (s : String)
  | kbFileNotFound
  | queryFailed (e : String)
deriving DecidableEq

/-- The string each return point produces. -/
def outcomeString : QueryOutcome → String
  | .missingInput => "Error: Missing required input \x27query\x27."
  | .noKnowledgeBase => "Error: No knowledge base found. Please upload PDF documents first."
  | .loadFailed => "Error: Failed to load knowledge base. The vector store may be corrupted."
  | .noRelevantInfo => "No relevant information found in the knowledge base for this query."
  | .result s => s
  | .kbFileNotFound => "Error: Knowledge base file not found. Please upload PDF documents first."
  | .queryFailed e => "Error: Failed to query knowledge base: " ++ e

/-- `QueryPdfKnowledge.async_invoke` (lines 46–95), as the return point
it reaches.  `query_arg` models `args.get("query", "")`; `storeExists`
is `os.path.exists(VECTOR_STORE_PATH)`; `post` is the outcome of the
external load/search calls. -/
def async_invoke (query_arg : Option String) (storeExists : Bool) (post : PostLoad) :
    QueryOutcome :=
  let query := query_arg.getD ""
  if query = "" then .missingInput
  else if storeExists = false then .noKnowledgeBase
  else
    match post with
    | .loadFalsy => .loadFailed
    | .raiseFileNotFound => .kbFileNotFound
    | .raiseOther e => .queryFailed e
    | .queried none => .noRelevantInfo
    | .queried (some r) => if r = "" ∨ pyStrip r = "" then .noRelevantInfo else .result r

/-- `QueryPdfKnowledge.invoke` (lines 97–101): the synchronous entry
point unconditionally returns the async-required error. -/
def invoke (_args _sly_data : List (String × Value)) : String :=
  "Error: This tool requires async execution. Please use async_invoke."

end QueryPdfKnowledge

/-! ## kwik_agents/extract_pdf_knowledge.py -/

namespace ExtractPdfKnowledge

/-- `ExtractPdfKnowledge.invoke` (lines 122–126): the synchronous entry
point unconditionally returns the async-required error. -/
def invoke (_args _sly_data : List (String × Value)) : String :=
  "Error: This tool requires async execution. Please use async_invoke."

end ExtractPdfKnowledge

/-! ## apps/pdf_knowledge_assistant/interface_flask.py -/

namespace InterfaceFlask

/-- `ALLOWED_EXTENSIONS` and `allowed_file` (lines 26, 36–38):
`"." in filename and filename.rsplit(".", 1)[1].lower() in {"pdf"}`.
`rsplit(".", 1)[1]` is the part of the filename after its last dot. -/
def allowed_file (filename : String) : Bool :=
  filename.data.any (fun c => c == '.') &&
    ((filename.data.reverse.takeWhile (fun c => c ≠ '.')).reverse.map Char.toLower
      == "pdf".data)

/-- `app.config["UPLOAD_FOLDER"]` (line 23). -/
def UPLOAD_FOLDER : String := "apps/pdf_knowledge_assistant/static/uploads"

/-- A filesystem write performed by the upload handler: the
`os.makedirs` call (line 71) or the `file.save` call (line 74). -/
inductive FsEffect where
  | makedirs (dir : String)
  | saveFile (path : String)
deriving DecidableEq

/-- The distinct responses of `upload_file` (lines 47–90), in source
order.  `success` carries the saved absolute path; `processingFailed`
is the `except` clause (reached only after the file was saved). -/
inductive UploadResponse where
  | errNoFilePart
  | errNoFileSelected
  | errNotPdf
  | success (filepath : String)
  | processingFailed (e : String)
deriving DecidableEq

/-- Whether a response is one of the three 400-status error JSON bodies
produced before any filesystem access. -/
def isRejection : UploadResponse → Bool
  | .errNoFilePart => true
  | .errNoFileSelected => true
  | .errNotPdf => true
  | _ => false

/-- `upload_file` (lines 47–90), returning the response together with
the list of filesystem writes it performed, in order.  `hasFilePart`
models `"file" in request.files`; `filename` the uploaded filename;
`secure` models werkzeug\x27s `secure_filename`; `timestamp` the
`datetime.now().strftime(...)` value; `agentOutcome` the result of
`process_pdf_upload` (`none` embeds a raised exception\x27s message in
`processingFailed`).  Path joining uses a POSIX separator. -/
def upload_file (secure : String → String) (timestamp : String)
    (hasFilePart : Bool) (filename : String)
    (agentOutcome : Except String String) : UploadResponse × List FsEffect :=
  if hasFilePart = false then (.errNoFilePart, [])
  else if filename = "" then (.errNoFileSelected, [])
  else if allowed_file filename = false then (.errNotPdf, [])
  else
    let unique_filename := timestamp ++ "_" ++ secure filename
    let filepath := UPLOAD_FOLDER ++ "/" ++ unique_filename
    match agentOutcome with
    | .ok _ => (.success filepath, [.makedirs UPLOAD_FOLDER, .saveFile filepath])
    | .error e => (.processingFailed e, [.makedirs UPLOAD_FOLDER, .saveFile filepath])

/-- An event emitted on the `/chat` WebSocket namespace. -/
inductive ChatEvent where
  | userMessage (data : String)
  | agentResponse (data : String)
deriving DecidableEq

/-- Result of `process_user_query` as seen by the handler: a returned
response (`ok`, possibly `None`) or a raised exception message. -/
inductive AgentOutcome where
  | ok (response : Option String)
  | exn (e : String)

/-- Python `response or "No response from agent."` (line 112): the
fallback replaces `None` and the empty string. -/
def pyOrDefault (response : Option String) (d : String) : String :=
  match response with
  | none => d
  | some s => if s = "" then d else s

/-- `handle_user_query` (lines 93–115), as the ordered list of events it
emits.  `data_arg` models `json_data.get("data", "")`; `agent` the
result of the external `process_user_query` call. -/
def handle_user_query (data_arg : Option String) (agent : AgentOutcome) : List ChatEvent :=
  let user_query := data_arg.getD ""
  if user_query = "" then
    [.agentResponse "Error: Empty query received."]
  else
    .userMessage user_query ::
      (match agent with
       | .ok response => [.agentResponse (pyOrDefault response "No response from agent.")]
       | .exn e => [.agentResponse ("Error processing query: " ++ e)])

end InterfaceFlask

/-! ## Theorems

One theorem per claim of the specification, with counterexamples and
witnesses where needed.  `supplier_invoke_eq` is a shared case analysis
of `ApprovedSupplierDatabase.invoke`. -/

/-- Case analysis of `ApprovedSupplierDatabase.invoke`: the table has a
single SKU, so every call is either the `TB-DINO-003` result (with or
without the rush advisory, depending on the uppercased priority) or the
not-found error string. -/
theorem supplier_invoke_eq (a b : Option String) :
    ApprovedSupplierDatabase.invoke a b =
      if a.getD "" = "TB-DINO-003" then
        (if pyUpper (b.getD "STANDARD") = "RUSH" then
          Value.dict (ApprovedSupplierDatabase.baseResult "TB-DINO-003" tbDinoRecord ++
            [("rush_advisory", Value.str ApprovedSupplierDatabase.rushAdvisory)])
         else
          Value.dict (ApprovedSupplierDatabase.baseResult "TB-DINO-003" tbDinoRecord))
      else
        Value.str ("Error: SKU \x27" ++ a.getD "" ++ "\x27 not found in Approved Vendor List.") := by
  by_cases h : a.getD "" = "TB-DINO-003" <;>
    by_cases hp : pyUpper (b.getD "STANDARD") = "RUSH" <;>
      simp [ApprovedSupplierDatabase.invoke, lookupTable, _SUPPLIER_DATA, h, hp]

/-- Claim C1: for every argument dictionary (any sku, any
order_priority), the dictionary returned by the approved-supplier
database tool never contains the key
`plasticiser_thermal_degradation_onset_celsius`, neither at top level
nor inside any entry of its `approved_suppliers` list. -/
theorem C1_supplier_output_never_contains_thermal_field (a b : Option String) :
    mentionsKeyTopOrSuppliers "plasticiser_thermal_degradation_onset_celsius"
      (ApprovedSupplierDatabase.invoke a b) = false := by
  rw [supplier_invoke_eq]
  by_cases h : a.getD "" = "TB-DINO-003"
  · rw [if_pos h]
    by_cases hp : pyUpper (b.getD "STANDARD") = "RUSH"
    · rw [if_pos hp]; decide
    · rw [if_neg hp]; decide
  · rw [if_neg h]; rfl

/-- Claim C2 as stated is false: because `invoke` uppercases the
priority before comparing, `order_priority = "rush"` also adds the
`rush_advisory` key, although the supplied argument is not exactly the
string `"RUSH"`. -/
theorem C2_counterexample_lowercase_rush :
    (some "rush" : Option String) ≠ some "RUSH" ∧
    hasTopKey "rush_advisory"
      (ApprovedSupplierDatabase.invoke (some "TB-DINO-003") (some "rush")) = true :=
  ⟨by decide, by decide⟩

/-- Claim C2, amended: for every invocation with a known SKU, the
result contains the `rush_advisory` key iff the order_priority argument
(defaulted to `"STANDARD"` when absent) uppercases to `"RUSH"`; in
particular an absent argument omits the key, and any letter-case
variant of `rush` adds it. -/
theorem C2_rush_advisory_iff_uppercased_priority (a b : Option String)
    (rec : SupplierRecord) (h : lookupTable (a.getD "") _SUPPLIER_DATA = some rec) :
    hasTopKey "rush_advisory" (ApprovedSupplierDatabase.invoke a b) = true ↔
      pyUpper (b.getD "STANDARD") = "RUSH" := by
  have hsku : a.getD "" = "TB-DINO-003" := by
    by_contra hc
    rw [show lookupTable (a.getD "") _SUPPLIER_DATA = none from by
      simp [lookupTable, _SUPPLIER_DATA, hc]] at h
    exact Option.noConfusion h
  rw [supplier_invoke_eq, if_pos hsku]
  by_cases hp : pyUpper (b.getD "STANDARD") = "RUSH"
  · rw [if_pos hp]
    simp only [hp, iff_true]
    decide
  · rw [if_neg hp]
    simp only [hp, iff_false]
    decide

/-- Witness for C2: `order_priority = "RUSH"` on the known SKU yields
the advisory. -/
theorem C2_rush_advisory_witness :
    hasTopKey "rush_advisory"
      (ApprovedSupplierDatabase.invoke (some "TB-DINO-003") (some "RUSH")) = true :=
  (C2_rush_advisory_iff_uppercased_priority (some "TB-DINO-003") (some "RUSH")
    tbDinoRecord rfl).mpr (by decide)

/-- Claim C3 as stated is false: the approved-supplier tool does not
normalize its `sku` argument — a SKU differing from the stored
`TB-DINO-003` only in letter case is rejected with the not-found error
instead of yielding the stored record. -/
theorem C3_counterexample_supplier_sku_not_normalized :
    isErrorString (ApprovedSupplierDatabase.invoke (some "tb-dino-003") none) = true ∧
    isErrorString (ApprovedSupplierDatabase.invoke (some "TB-DINO-003") none) = false :=
  ⟨by decide, by decide⟩

/-- Claim C3, amended: the compliance-checklist, production-parameter
and quality-failure-mode tools normalize their string key (lowercase,
space-to-underscore) before lookup, so any key whose normalisation is
the stored key yields the same result as the stored key; the
approved-supplier tool looks its SKU up verbatim, with no
normalisation. -/
theorem C3_three_tools_normalize_key (k1 k2 k3 : String)
    (h1 : pyNormalizeKey k1 = "injection_moulding")
    (h2 : pyNormalizeKey k2 = "childrens_toy_production")
    (h3 : pyNormalizeKey k3 = "pvc_injection_moulding") :
    ProductionParameterDatabase.invoke (some k1) =
        ProductionParameterDatabase.invoke (some "injection_moulding") ∧
    ComplianceChecklistDatabase.invoke (some k2) =
        ComplianceChecklistDatabase.invoke (some "childrens_toy_production") ∧
    QualityFailureModeDatabase.invoke (some k3) =
        QualityFailureModeDatabase.invoke (some "pvc_injection_moulding") := by
  refine ⟨?_, ?_, ?_⟩
  · simp only [ProductionParameterDatabase.invoke, Option.getD_some]
    rw [h1]
    rfl
  · simp only [ComplianceChecklistDatabase.invoke, Option.getD_some]
    rw [h2]
    rfl
  · simp only [QualityFailureModeDatabase.invoke, Option.getD_some]
    rw [h3]
    rfl

/-- Witness for C3: keys differing from the stored ones in case and in
spaces-versus-underscores hit the same records. -/
theorem C3_normalization_witness :
    ProductionParameterDatabase.invoke (some "Injection Moulding") =
        ProductionParameterDatabase.invoke (some "injection_moulding") ∧
    ComplianceChecklistDatabase.invoke (some "CHILDRENS_TOY_PRODUCTION") =
        ComplianceChecklistDatabase.invoke (some "childrens_toy_production") ∧
    QualityFailureModeDatabase.invoke (some "PVC Injection Moulding") =
        QualityFailureModeDatabase.invoke (some "pvc_injection_moulding") :=
  C3_three_tools_normalize_key "Injection Moulding" "CHILDRENS_TOY_PRODUCTION"
    "PVC Injection Moulding" (by decide) (by decide) (by decide)

/-- Claim C8: for every key not present in a tool\x27s fixed table, each
of the four static database tools returns exactly its not-found error
string — never a dictionary with a partial subset of a record\x27s
fields. -/
theorem C8_unknown_key_yields_error_string (a b k1 k2 k3 : Option String)
    (ha : lookupTable (a.getD "") _SUPPLIER_DATA = none)
    (h1 : lookupTable (pyNormalizeKey (k1.getD "injection_moulding")) _PARAMETER_RANGES = none)
    (h2 : lookupTable (pyNormalizeKey (k2.getD "childrens_toy_production"))
      _COMPLIANCE_CHECKLISTS = none)
    (h3 : lookupTable (pyNormalizeKey (k3.getD "pvc_injection_moulding")) _FAILURE_MODES = none) :
    ApprovedSupplierDatabase.invoke a b =
        .str ("Error: SKU \x27" ++ a.getD "" ++ "\x27 not found in Approved Vendor List.") ∧
    ProductionParameterDatabase.invoke k1 =
        .str ("Error: Process type \x27" ++ pyNormalizeKey (k1.getD "injection_moulding") ++
          "\x27 not found in approved parameter database.") ∧
    ComplianceChecklistDatabase.invoke k2 =
        .str ("Error: Product category \x27" ++ pyNormalizeKey (k2.getD "childrens_toy_production") ++
          "\x27 not found in compliance checklist database.") ∧
    QualityFailureModeDatabase.invoke k3 =
        .str ("Error: Process type \x27" ++ pyNormalizeKey (k3.getD "pvc_injection_moulding") ++
          "\x27 not found in failure mode database.") := by
  refine ⟨?_, ?_, ?_, ?_⟩
  · simp [ApprovedSupplierDatabase.invoke, ha]
  · simp [ProductionParameterDatabase.invoke, h1]
  · simp [ComplianceChecklistDatabase.invoke, h2]
  · simp [QualityFailureModeDatabase.invoke, h3]

/-- Witness for C8: unknown keys for all four tools produce their
not-found error strings. -/
theorem C8_unknown_key_witness :
    ApprovedSupplierDatabase.invoke (some "UNKNOWN-SKU") none =
      .str "Error: SKU \x27UNKNOWN-SKU\x27 not found in Approved Vendor List." :=
  (C8_unknown_key_yields_error_string (some "UNKNOWN-SKU") none (some "extrusion")
    (some "food production") (some "cnc machining") rfl rfl rfl rfl).1

/-- Claim C6: the add-PDF ingestion tool rejects, in order, an empty
`file_path`, a path naming no existing file, and a path not ending in
`.pdf` case-insensitively, each with an `Error:`-prefixed string and
with the registry state unchanged (no ingestion). -/
theorem C6_add_pdf_input_validation (fp : String) (ex : Bool)
    (outcome : AddPdfToKnowledge.IngestOutcome) (sz : Nat) (now : String)
    (st : KnowledgeState) :
    (fp = "" → AddPdfToKnowledge.async_invoke fp ex outcome sz now st =
      ("Error: Missing required input \x27file_path\x27.", st)) ∧
    (fp ≠ "" → ex = false → AddPdfToKnowledge.async_invoke fp ex outcome sz now st =
      ("Error: File not found: " ++ fp, st)) ∧
    (fp ≠ "" → ex = true → pyEndsWith (pyLower fp) ".pdf" = false →
      AddPdfToKnowledge.async_invoke fp ex outcome sz now st =
        ("Error: File must be a PDF: " ++ fp, st)) := by
  refine ⟨?_, ?_, ?_⟩
  · intro h
    simp [AddPdfToKnowledge.async_invoke, h]
  · intro h hex
    simp [AddPdfToKnowledge.async_invoke, h, hex]
  · intro h hex hpdf
    simp [AddPdfToKnowledge.async_invoke, h, hex, hpdf]

/-- Witness for C6: a `.txt` path that exists is rejected by the
extension check with the registry untouched. -/
theorem C6_add_pdf_validation_witness :
    AddPdfToKnowledge.async_invoke "notes.txt" true (.pages 3) 10 "t" ⟨[]⟩ =
      ("Error: File must be a PDF: " ++ "notes.txt", ⟨[]⟩) :=
  (C6_add_pdf_input_validation "notes.txt" true (.pages 3) 10 "t" ⟨[]⟩).2.2
    (by decide) rfl (by decide)

/-- Claim C4: each successful ingestion appends exactly one new entry at
the end of the document registry, leaves every previously stored entry
unchanged, and ingesting the same valid PDF twice appends two entries. -/
theorem C4_successful_ingestion_appends_one_entry (fp now now2 : String)
    (n n2 sz sz2 : Nat) (st : KnowledgeState)
    (hfp : fp ≠ "") (hpdf : pyEndsWith (pyLower fp) ".pdf" = true) :
    (AddPdfToKnowledge.async_invoke fp true (.pages n) sz now st).2.registry =
        st.registry ++ [AddPdfToKnowledge.mkEntry fp now n sz] ∧
    (AddPdfToKnowledge.async_invoke fp true (.pages n) sz now st).2.registry.length =
        st.registry.length + 1 ∧
    (∀ i, i < st.registry.length →
      (AddPdfToKnowledge.async_invoke fp true (.pages n) sz now st).2.registry[i]? =
        st.registry[i]?) ∧
    (AddPdfToKnowledge.async_invoke fp true (.pages n2) sz2 now2
        (AddPdfToKnowledge.async_invoke fp true (.pages n) sz now st).2).2.registry =
      st.registry ++ [AddPdfToKnowledge.mkEntry fp now n sz,
        AddPdfToKnowledge.mkEntry fp now2 n2 sz2] := by
  have hstep : ∀ (m szm : Nat) (nowm : String) (s : KnowledgeState),
      AddPdfToKnowledge.async_invoke fp true (.pages m) szm nowm s =
        ("Successfully added " ++ pyBasename fp ++ " to knowledge base - " ++
          toString m ++ " pages processed.",
         ⟨s.registry ++ [AddPdfToKnowledge.mkEntry fp nowm m szm]⟩) := by
    intro m szm nowm s
    simp [AddPdfToKnowledge.async_invoke, AddPdfToKnowledge._update_document_registry,
      hfp, hpdf]
  refine ⟨?_, ?_, ?_, ?_⟩
  · rw [hstep]
  · rw [hstep]
    simp
  · intro i hi
    rw [hstep]
    exact List.getElem?_append_left hi
  · rw [hstep, hstep]
    simp

/-- Witness for C4: ingesting `doc.pdf` twice starting from an empty
registry yields exactly the two entries, in order. -/
theorem C4_ingestion_witness :
    (AddPdfToKnowledge.async_invoke "doc.pdf" true (.pages 2) 50 "t2"
        (AddPdfToKnowledge.async_invoke "doc.pdf" true (.pages 3) 100 "t1" ⟨[]⟩).2).2.registry =
      [AddPdfToKnowledge.mkEntry "doc.pdf" "t1" 3 100,
       AddPdfToKnowledge.mkEntry "doc.pdf" "t2" 2 50] :=
  (C4_successful_ingestion_appends_one_entry "doc.pdf" "t1" "t2" 3 2 100 50 ⟨[]⟩
    (by decide) (by decide)).2.2.2

/-- Claim C5: the query tool returns the missing-input error exactly
when the query argument is empty or absent, and the
no-knowledge-base-found error exactly when the query is non-empty and
the vector-store file does not exist; no other pre-load condition
produces those two return points, whose strings are as stated. -/
theorem C5_query_tool_preload_errors (q : Option String) (storeExists : Bool)
    (post : QueryPdfKnowledge.PostLoad) :
    (QueryPdfKnowledge.async_invoke q storeExists post = .missingInput ↔ q.getD "" = "") ∧
    (QueryPdfKnowledge.async_invoke q storeExists post = .noKnowledgeBase ↔
      (q.getD "" ≠ "" ∧ storeExists = false)) ∧
    QueryPdfKnowledge.outcomeString .missingInput =
      "Error: Missing required input \x27query\x27." ∧
    QueryPdfKnowledge.outcomeString .noKnowledgeBase =
      "Error: No knowledge base found. Please upload PDF documents first." := by
  refine ⟨?_, ?_, rfl, rfl⟩
  · by_cases hq : q.getD "" = ""
    · simp [QueryPdfKnowledge.async_invoke, hq]
    · by_cases hs : storeExists = false
      · simp [QueryPdfKnowledge.async_invoke, hq, hs]
      · cases post with
        | loadFalsy => simp [QueryPdfKnowledge.async_invoke, hq, hs]
        | raiseFileNotFound => simp [QueryPdfKnowledge.async_invoke, hq, hs]
        | raiseOther e => simp [QueryPdfKnowledge.async_invoke, hq, hs]
        | queried r =>
            cases r with
            | none => simp [QueryPdfKnowledge.async_invoke, hq, hs]
            | some s =>
                constructor
                · intro hcontra
                  by_cases hcond : s = "" ∨ pyStrip s = "" <;>
                    simp [QueryPdfKnowledge.async_invoke, hq, hs, hcond] at hcontra
                · intro hcontra
                  exact absurd hcontra hq
  · by_cases hq : q.getD "" = ""
    · simp [QueryPdfKnowledge.async_invoke, hq]
    · by_cases hs : storeExists = false
      · simp [QueryPdfKnowledge.async_invoke, hq, hs]
      · cases post with
        | loadFalsy => simp [QueryPdfKnowledge.async_invoke, hq, hs]
        | raiseFileNotFound => simp [QueryPdfKnowledge.async_invoke, hq, hs]
        | raiseOther e => simp [QueryPdfKnowledge.async_invoke, hq, hs]
        | queried r =>
            cases r with
            | none => simp [QueryPdfKnowledge.async_invoke, hq, hs]
            | some s =>
                constructor
                · intro hcontra
                  by_cases hcond : s = "" ∨ pyStrip s = "" <;>
                    simp [QueryPdfKnowledge.async_invoke, hq, hs, hcond] at hcontra
                · intro hcontra
                  exact absurd hcontra.2 hs

/-- Claim C10: the synchronous `invoke` entry point of each of the
three kwik_agents tools returns the fixed async-required error string
for every argument dictionary and every sly_data dictionary. -/
theorem C10_sync_invoke_always_async_error (args sly_data : List (String × Value)) :
    AddPdfToKnowledge.invoke args sly_data =
      "Error: This tool requires async execution. Please use async_invoke." ∧
    QueryPdfKnowledge.invoke args sly_data =
      "Error: This tool requires async execution. Please use async_invoke." ∧
    ExtractPdfKnowledge.invoke args sly_data =
      "Error: This tool requires async execution. Please use async_invoke." :=
  ⟨rfl, rfl, rfl⟩

/-- Claim C7: an upload whose filename fails the `.pdf` extension check
(including a missing extension or an empty filename) is answered with
an error response and performs no filesystem write — no upload
directory is created and no file is saved. -/
theorem C7_non_pdf_upload_rejected_without_fs_write (secure : String → String)
    (timestamp : String) (hasFilePart : Bool) (filename : String)
    (agent : Except String String)
    (h : InterfaceFlask.allowed_file filename = false) :
    InterfaceFlask.isRejection
      (InterfaceFlask.upload_file secure timestamp hasFilePart filename agent).1 = true ∧
    (InterfaceFlask.upload_file secure timestamp hasFilePart filename agent).2 = [] := by
  by_cases hf : hasFilePart = false
  · simp [InterfaceFlask.upload_file, hf, InterfaceFlask.isRejection]
  · by_cases hn : filename = ""
    · simp [InterfaceFlask.upload_file, hf, hn, InterfaceFlask.isRejection]
    · simp [InterfaceFlask.upload_file, hf, hn, h, InterfaceFlask.isRejection]

/-- Witness for C7: a `.txt` upload is rejected with no filesystem
effects. -/
theorem C7_non_pdf_upload_witness :
    InterfaceFlask.isRejection
      (InterfaceFlask.upload_file id "ts" true "notes.txt" (.ok "r")).1 = true ∧
    (InterfaceFlask.upload_file id "ts" true "notes.txt" (.ok "r")).2 = [] :=
  C7_non_pdf_upload_rejected_without_fs_write id "ts" true "notes.txt" (.ok "r") (by decide)

/-- Claim C9 as stated is false: a `user_query` event whose `data` is
the empty string is answered with a single `agent_response` error event
and no `user_message` echo. -/
theorem C9_counterexample_empty_data_no_echo :
    InterfaceFlask.handle_user_query (some "") (.ok (some "hi")) =
      [.agentResponse "Error: Empty query received."] := by
  decide

/-- Claim C9, amended: for every `user_query` event whose `data` string
is non-empty, the handler emits a `user_message` echo of that data
followed by an `agent_response` event, in that order and nothing else;
an event with empty (or absent) `data` gets only an `agent_response`
error. -/
theorem C9_echo_then_response_iff_nonempty (d : Option String)
    (agent : InterfaceFlask.AgentOutcome) :
    (d.getD "" ≠ "" → ∃ r, InterfaceFlask.handle_user_query d agent =
      [.userMessage (d.getD ""), .agentResponse r]) ∧
    (d.getD "" = "" → InterfaceFlask.handle_user_query d agent =
      [.agentResponse "Error: Empty query received."]) := by
  constructor
  · intro h
    cases agent with
    | ok response =>
        exact ⟨InterfaceFlask.pyOrDefault response "No response from agent.",
          by simp [InterfaceFlask.handle_user_query, h]⟩
    | exn e =>
        exact ⟨"Error processing query: " ++ e,
          by simp [InterfaceFlask.handle_user_query, h]⟩
  · intro h
    simp [InterfaceFlask.handle_user_query, h]

/-- Witness for C9: a non-empty query is echoed and then answered. -/
theorem C9_echo_witness :
    ∃ r, InterfaceFlask.handle_user_query (some "hello") (.ok (some "hi")) =
      [.userMessage "hello", .agentResponse r] :=
  (C9_echo_then_response_iff_nonempty (some "hello") (.ok (some "hi"))).1 (by decide)
